import Mathlib

/-
Verification of the c_libax stdlib shim (src/ulib/c_libax/src/stdlib.c).

The shim consists of three C functions forwarding to an external runtime:

  void srand(unsigned s)        { ax_srand(s); }
  int  rand(void)               { return ax_rand_u32(); }
  _Noreturn void abort(void)    { ax_panic(); __builtin_unreachable(); }

We embed the shim shallowly: the external runtime (libax) is an abstract
oracle over a state type, each C function body is a list of primitive
statements, and a small interpreter gives the body its C meaning, recording
which runtime entry points were invoked.  Machine integers are modelled as
Nat with explicit reduction modulo 2^32; the conversion performed by C when
an unsigned 32-bit value is returned from a function of type int is modelled
as the usual two's-complement reinterpretation.
-/

namespace CLibaxStdlib

/-- The modulus of the 32-bit unsigned type uint32_t, i.e. 2^32. -/
def UINT32_MOD : Nat := 4294967296

/-- 2^31, the least unsigned 32-bit value not representable in a signed
32-bit int. -/
def INT32_MIN_MAG : Nat := 2147483648

/-- The conversion applied by C when a uint32_t value is returned from a
function whose return type is int: the value is reduced modulo 2^32 (it
already is, for a genuine uint32_t) and reinterpreted as a 32-bit
two's-complement signed integer, so values at or above 2^31 wrap to
negative numbers. -/
def toInt32 (r : Nat) : Int :=
  if r % UINT32_MOD < INT32_MIN_MAG then Int.ofNat (r % UINT32_MOD)
  else Int.ofNat (r % UINT32_MOD) - Int.ofNat UINT32_MOD

/-- The behaviour of one invocation of the runtime's panic entry point on a
given runtime state: it either returns control (with a successor state) or
diverges (never returns). -/
inductive PanicBehavior (σ : Type) where
  | returns (st : σ)
  | diverges
deriving DecidableEq

/-- The external runtime (libax) entry points the shim forwards to, as an
abstract oracle over a runtime-owned state type σ.  ax_srand seeds the
generator state, ax_rand_u32 produces an unsigned 32-bit value together
with the successor state, ax_panic has a PanicBehavior. -/
structure Runtime (σ : Type) where
  ax_srand : Nat → σ → σ
  ax_rand_u32 : σ → Nat × σ
  ax_panic : σ → PanicBehavior σ

variable {σ : Type}

/-- Runtime contract: ax_rand_u32 produces a value representable in 32
bits. -/
def Runtime.RandU32InRange (R : Runtime σ) : Prop :=
  ∀ st, (R.ax_rand_u32 st).1 < UINT32_MOD

/-- Runtime contract (documented for ax_panic): the panic entry point never
returns control to the caller. -/
def Runtime.PanicNeverReturns (R : Runtime σ) : Prop :=
  ∀ st, R.ax_panic st = PanicBehavior.diverges

/-- The primitive statements occurring in the shim's three function bodies,
one per source statement. -/
inductive Prim where
  | callSrand (s : Nat)
  | retRand
  | callPanic
  | unreachableMarker
deriving DecidableEq

/-- Result of executing one primitive statement: fall through to the next
statement, return from the enclosing function with a value, diverge, or
reach an undefined-behaviour point. -/
inductive StepRes (σ : Type) where
  | cont (st : σ)
  | retv (v : Int) (st : σ)
  | dvg
  | ub (st : σ)

/-- One primitive statement of the shim, given its C meaning over the
runtime oracle.  callSrand s is the statement ax_srand(s); retRand is
return ax_rand_u32(); with the uint32-to-int conversion applied to the
returned value; callPanic is ax_panic(); unreachableMarker is the
builtin unreachable marker. -/
def pstep (R : Runtime σ) (p : Prim) (st : σ) : StepRes σ :=
  match p with
  | Prim.callSrand s => StepRes.cont (R.ax_srand s st)
  | Prim.retRand =>
      StepRes.retv (toInt32 (R.ax_rand_u32 st).1) (R.ax_rand_u32 st).2
  | Prim.callPanic =>
      match R.ax_panic st with
      | PanicBehavior.returns st' => StepRes.cont st'
      | PanicBehavior.diverges => StepRes.dvg
  | Prim.unreachableMarker => StepRes.ub st

/-- Outcome of running a function body: a normal void return, a normal
return with an int value, divergence, or reaching an undefined-behaviour
point. -/
inductive Outcome (σ : Type) where
  | retNone (st : σ)
  | retSome (v : Int) (st : σ)
  | diverged
  | ubReached (st : σ)
deriving DecidableEq

/-- Whether an outcome is a normal return (with or without a value). -/
def Outcome.normal : Outcome σ → Bool
  | Outcome.retNone _ => true
  | Outcome.retSome _ _ => true
  | Outcome.diverged => false
  | Outcome.ubReached _ => false

/-- Run a function body: execute its statements in order, and record the
list of primitive statements actually executed (the call trace).  Falling
off the end of the body is a normal void return. -/
def run (R : Runtime σ) : List Prim → σ → Outcome σ × List Prim
  | [], st => (Outcome.retNone st, [])
  | p :: rest, st =>
      match pstep R p st with
      | StepRes.cont st' => ((run R rest st').1, p :: (run R rest st').2)
      | StepRes.retv v st' => (Outcome.retSome v st', [p])
      | StepRes.dvg => (Outcome.diverged, [p])
      | StepRes.ub st' => (Outcome.ubReached st', [p])

/-- Body of void srand(unsigned s): the single statement ax_srand(s); -/
def srandBody (s : Nat) : List Prim := [Prim.callSrand s]

/-- Body of int rand(void): the single statement return ax_rand_u32(); -/
def randBody : List Prim := [Prim.retRand]

/-- Body of _Noreturn void abort(void): ax_panic(); then the builtin
unreachable marker. -/
def abortBody : List Prim := [Prim.callPanic, Prim.unreachableMarker]

/-- The shim's srand, as the run of its body. -/
def srand (R : Runtime σ) (s : Nat) (st : σ) : Outcome σ × List Prim :=
  run R (srandBody s) st

/-- The shim's rand, as the run of its body. -/
def rand (R : Runtime σ) (st : σ) : Outcome σ × List Prim :=
  run R randBody st

/-- The shim's abort, as the run of its body. -/
def abort (R : Runtime σ) (st : σ) : Outcome σ × List Prim :=
  run R abortBody st

/-- A caller's program srand(S); rand() as one inlined body. -/
def seedThenRandBody (S : Nat) : List Prim := srandBody S ++ randBody

/-- Modelled from the spec: the wrapped runtime called directly with the
same seed, i.e. the sequence ax_srand(S); ax_rand_u32(), whose result is
the runtime's unsigned 32-bit value and successor state. -/
def runtimeDirect (R : Runtime σ) (S : Nat) (st : σ) : Nat × σ :=
  R.ax_rand_u32 (R.ax_srand S st)

/-- A concrete runtime on the unit state whose generator always produces
2^31, the least value whose signed 32-bit reinterpretation is negative. -/
def Rhigh : Runtime Unit :=
  ⟨fun _ _ => (), fun _ => (INT32_MIN_MAG, ()), fun _ => PanicBehavior.diverges⟩

/-- A concrete runtime on the unit state whose generator always produces 7
and whose panic entry diverges. -/
def Rsmall : Runtime Unit :=
  ⟨fun _ _ => (), fun _ => (7, ()), fun _ => PanicBehavior.diverges⟩

/-- A concrete runtime agreeing with Rsmall on the generator entry points
but differing on the panic entry point. -/
def Rother : Runtime Unit :=
  ⟨fun _ _ => (), fun _ => (7, ()), fun _ => PanicBehavior.returns ()⟩

/-- C1 counterexample: with a runtime whose generator produces 2^31, rand
does not return that unsigned value verbatim: the value returned through
the int return type is negative, hence differs from the produced value. -/
theorem rand_not_verbatim_counterexample :
    (rand Rhigh ()).1 ≠
      Outcome.retSome (Int.ofNat ((Rhigh.ax_rand_u32 ()).1))
        ((Rhigh.ax_rand_u32 ()).2) := by
  decide

/-- C1 (amended): rand forwards the runtime's unsigned 32-bit value through
its int return type with no information loss: the returned value is
congruent to the produced value modulo 2^32, equals it exactly whenever the
produced value is below 2^31, and the resulting state is exactly the one
ax_rand_u32 produced. -/
theorem rand_value_mod_preserved (R : Runtime σ) (h : R.RandU32InRange)
    (st : σ) :
    (rand R st).1 =
      Outcome.retSome (toInt32 (R.ax_rand_u32 st).1) ((R.ax_rand_u32 st).2) ∧
    (toInt32 (R.ax_rand_u32 st).1) % (Int.ofNat UINT32_MOD) =
      Int.ofNat (R.ax_rand_u32 st).1 ∧
    ((R.ax_rand_u32 st).1 < INT32_MIN_MAG →
      toInt32 (R.ax_rand_u32 st).1 = Int.ofNat (R.ax_rand_u32 st).1) := by
  have hr := h st
  simp only [UINT32_MOD] at hr
  refine ⟨rfl, ?_, ?_⟩
  · simp only [toInt32, UINT32_MOD, INT32_MIN_MAG, Int.ofNat_eq_coe,
      Nat.cast_ofNat]
    split <;> omega
  · intro hlt
    simp only [INT32_MIN_MAG] at hlt
    simp only [toInt32, UINT32_MOD, INT32_MIN_MAG, Int.ofNat_eq_coe,
      Nat.cast_ofNat]
    split <;> omega

/-- The runtime Rsmall satisfies the 32-bit range contract. -/
theorem Rsmall_range : Rsmall.RandU32InRange := by
  intro st
  cases st
  decide

/-- The runtime Rhigh satisfies the 32-bit range contract. -/
theorem Rhigh_range : Rhigh.RandU32InRange := by
  intro st
  cases st
  decide

/-- Witness for the amended C1 at the concrete runtime Rsmall. -/
theorem rand_value_mod_preserved_witness :
    Rsmall.RandU32InRange ∧
      ((rand Rsmall ()).1 =
        Outcome.retSome (toInt32 (Rsmall.ax_rand_u32 ()).1)
          ((Rsmall.ax_rand_u32 ()).2) ∧
      (toInt32 (Rsmall.ax_rand_u32 ()).1) % (Int.ofNat UINT32_MOD) =
        Int.ofNat (Rsmall.ax_rand_u32 ()).1 ∧
      ((Rsmall.ax_rand_u32 ()).1 < INT32_MIN_MAG →
        toInt32 (Rsmall.ax_rand_u32 ()).1 =
          Int.ofNat (Rsmall.ax_rand_u32 ()).1)) :=
  ⟨Rsmall_range, rand_value_mod_preserved Rsmall Rsmall_range ()⟩

/-- C2 counterexample: with a runtime whose generator produces 2^31,
srand(0); rand() does not yield the same result value as the direct
sequence ax_srand(0); ax_rand_u32(): the shim's int result is negative
while the runtime's direct unsigned result is 2^31. -/
theorem seed_then_rand_counterexample :
    (run Rhigh (seedThenRandBody 0) ()).1 ≠
      Outcome.retSome (Int.ofNat ((runtimeDirect Rhigh 0 ()).1))
        ((runtimeDirect Rhigh 0 ()).2) := by
  decide

/-- C2 (amended): for every seed S, srand(S); rand() is a pure pass-through
of the direct runtime sequence ax_srand(S); ax_rand_u32(): the final state
is exactly the direct sequence's state, and the value returned is the
direct sequence's unsigned 32-bit value converted through the int return
type, congruent to it modulo 2^32 and equal to it exactly whenever it is
below 2^31. -/
theorem seed_then_rand_passthrough (R : Runtime σ) (S : Nat) (st : σ)
    (h : R.RandU32InRange) :
    (run R (seedThenRandBody S) st).1 =
      Outcome.retSome (toInt32 ((runtimeDirect R S st).1))
        ((runtimeDirect R S st).2) ∧
    (toInt32 ((runtimeDirect R S st).1)) % (Int.ofNat UINT32_MOD) =
      Int.ofNat ((runtimeDirect R S st).1) ∧
    ((runtimeDirect R S st).1 < INT32_MIN_MAG →
      toInt32 ((runtimeDirect R S st).1) =
        Int.ofNat ((runtimeDirect R S st).1)) := by
  have hr := h (R.ax_srand S st)
  simp only [UINT32_MOD] at hr
  refine ⟨rfl, ?_, ?_⟩
  · simp only [runtimeDirect, toInt32, UINT32_MOD, INT32_MIN_MAG,
      Int.ofNat_eq_coe, Nat.cast_ofNat]
    split <;> omega
  · intro hlt
    simp only [runtimeDirect, INT32_MIN_MAG] at hlt
    simp only [runtimeDirect, toInt32, UINT32_MOD, INT32_MIN_MAG,
      Int.ofNat_eq_coe, Nat.cast_ofNat]
    split <;> omega

/-- Witness for the amended C2 at the concrete runtime Rsmall with seed 5. -/
theorem seed_then_rand_passthrough_witness :
    Rsmall.RandU32InRange ∧
      (run Rsmall (seedThenRandBody 5) ()).1 =
        Outcome.retSome (toInt32 ((runtimeDirect Rsmall 5 ()).1))
          ((runtimeDirect Rsmall 5 ()).2) :=
  ⟨Rsmall_range, (seed_then_rand_passthrough Rsmall 5 () Rsmall_range).1⟩

/-- C3: under the contract that ax_panic never returns, every execution of
abort diverges: its outcome is divergence and the only statement ever
executed is the call to ax_panic, so no code after that call is reached. -/
theorem abort_diverges (R : Runtime σ) (h : R.PanicNeverReturns) (st : σ) :
    abort R st = (Outcome.diverged, [Prim.callPanic]) := by
  have hp := h st
  simp [abort, abortBody, run, pstep, hp]

/-- Witness for C3 at the concrete runtime Rhigh, whose panic entry
diverges. -/
theorem abort_diverges_witness :
    Rhigh.PanicNeverReturns ∧
      abort Rhigh () = (Outcome.diverged, [Prim.callPanic]) :=
  ⟨fun _ => rfl, abort_diverges Rhigh (fun _ => rfl) ()⟩

/-- C4: srand forwards its argument s to ax_srand exactly, with no
validation or transformation, performs nothing else, and returns no value:
its outcome is a void return in precisely the state ax_srand produced from
the unmodified seed s. -/
theorem srand_forwards_seed (R : Runtime σ) (s : Nat) (st : σ) :
    srand R s st = (Outcome.retNone (R.ax_srand s st), [Prim.callSrand s]) :=
  rfl

/-- C5: srand and rand cannot fail: for every runtime, seed and state their
outcome is a normal return (srand with no value, rand with a value); no
error, divergence or undefined behaviour arises in the shim. -/
theorem srand_rand_never_fail (R : Runtime σ) (s : Nat) (st : σ) :
    ((srand R s st).1.normal = true ∧ (rand R st).1.normal = true) ∧
    (srand R s st).1 ≠ Outcome.diverged ∧ (rand R st).1 ≠ Outcome.diverged :=
  ⟨⟨rfl, rfl⟩, fun hc => by simp [srand, srandBody, run, pstep] at hc,
    fun hc => by simp [rand, randBody, run, pstep] at hc⟩

/-- C6: under the contract that ax_panic never returns, the unreachable
marker placed after the call in abort is indeed never reached: it never
appears in the executed trace, and abort's outcome is never the
undefined-behaviour outcome of reaching it. -/
theorem abort_unreachable_not_reached (R : Runtime σ)
    (h : R.PanicNeverReturns) (st : σ) :
    Prim.unreachableMarker ∉ (abort R st).2 ∧
    ∀ st', (abort R st).1 ≠ Outcome.ubReached st' := by
  have hp := h st
  constructor
  · simp [abort, abortBody, run, pstep, hp]
  · intro st'
    simp [abort, abortBody, run, pstep, hp]

/-- Witness for C6 at the concrete runtime Rhigh. -/
theorem abort_unreachable_witness :
    Rhigh.PanicNeverReturns ∧
      Prim.unreachableMarker ∉ (abort Rhigh ()).2 :=
  ⟨fun _ => rfl, (abort_unreachable_not_reached Rhigh (fun _ => rfl) ()).1⟩

/-- C7 (frame condition): the shim owns and mutates no state of its own:
the state after srand is exactly the state ax_srand produced, and the state
after rand is exactly the state ax_rand_u32 produced; no other state
changes. -/
theorem shim_frame_condition (R : Runtime σ) (s : Nat) (st : σ) :
    (srand R s st).1 = Outcome.retNone (R.ax_srand s st) ∧
    (rand R st).1 =
      Outcome.retSome (toInt32 (R.ax_rand_u32 st).1) ((R.ax_rand_u32 st).2) :=
  ⟨rfl, rfl⟩

/-- C8: each shim operation invokes its runtime counterpart exactly once
per call and performs no caching: srand's executed trace is exactly one
seeding call consuming s, rand's executed trace is exactly one generator
call, and rand's value comes from that fresh call on the current state. -/
theorem shim_calls_exactly_once (R : Runtime σ) (s : Nat) (st : σ) :
    (srand R s st).2 = [Prim.callSrand s] ∧
    (rand R st).2 = [Prim.retRand] ∧
    (rand R st).1 =
      Outcome.retSome (toInt32 (R.ax_rand_u32 st).1) ((R.ax_rand_u32 st).2) :=
  ⟨rfl, rfl, rfl⟩

/-- C9: rand's C return type is signed int, so the runtime's unsigned
32-bit value is reinterpreted as a 32-bit two's-complement signed integer:
rand returns toInt32 of the produced value, and whenever the produced value
is at least 2^31 the returned value is that value minus 2^32, which is
negative. -/
theorem rand_signed_reinterpretation (R : Runtime σ) (st : σ)
    (h : R.RandU32InRange) :
    (rand R st).1 =
      Outcome.retSome (toInt32 (R.ax_rand_u32 st).1) ((R.ax_rand_u32 st).2) ∧
    (INT32_MIN_MAG ≤ (R.ax_rand_u32 st).1 →
      toInt32 (R.ax_rand_u32 st).1 =
        Int.ofNat (R.ax_rand_u32 st).1 - Int.ofNat UINT32_MOD ∧
      toInt32 (R.ax_rand_u32 st).1 < 0) := by
  have hr := h st
  refine ⟨rfl, fun hge => ?_⟩
  simp only [UINT32_MOD] at hr
  simp only [INT32_MIN_MAG] at hge
  simp only [toInt32, UINT32_MOD, INT32_MIN_MAG, Int.ofNat_eq_coe,
    Nat.cast_ofNat]
  constructor
  · split <;> omega
  · split <;> omega

/-- Witness for C9 at the concrete runtime Rhigh, whose generator produces
2^31: the value rand returns is negative. -/
theorem rand_signed_reinterpretation_witness :
    Rhigh.RandU32InRange ∧ toInt32 (Rhigh.ax_rand_u32 ()).1 < 0 :=
  ⟨Rhigh_range,
    ((rand_signed_reinterpretation Rhigh () Rhigh_range).2 (by decide)).2⟩

/-- C10 (two-run determinism): the shim introduces no nondeterminism: if
two runtimes behave the same on the entry points a call uses, the shim's
observable output is identical; srand's effect is a pure function of its
seed and the runtime's seeding map, and rand's result is a pure function of
what ax_rand_u32 returns. -/
theorem shim_deterministic (R1 R2 : Runtime σ) (s : Nat) (st1 st2 : σ)
    (hs : R1.ax_srand s st1 = R2.ax_srand s st2)
    (hr : R1.ax_rand_u32 st1 = R2.ax_rand_u32 st2) :
    srand R1 s st1 = srand R2 s st2 ∧ rand R1 st1 = rand R2 st2 := by
  constructor
  · simp [srand, srandBody, run, pstep, hs]
  · simp [rand, randBody, run, pstep, hr]

/-- Witness for C10: two concrete runtimes agreeing on the generator entry
points but differing on the panic entry point give identical rand output. -/
theorem shim_deterministic_witness :
    Rsmall.ax_srand 3 () = Rother.ax_srand 3 () ∧
    Rsmall.ax_rand_u32 () = Rother.ax_rand_u32 () ∧
    rand Rsmall () = rand Rother () :=
  ⟨rfl, rfl, (shim_deterministic Rsmall Rother 3 () () rfl rfl).2⟩

end CLibaxStdlib
